import Mathlib

/-!
The OpenVR interface broker of `openvr_api_public.cpp`

A shallow embedding of the broker (`g_pVRModule`, `g_pHmdSystem`,
`g_nVRToken`), of its lifecycle entry points and of the per-module
capability cache `COpenVRContext`.

Conventions of the embedding.

* Pointers are natural numbers, `0` is `NULL`.
* `uint32_t` values are natural numbers, `++` is computed modulo `2^32`.
* `std::string` values are lists of characters.
* The external collaborators (path registry, file system, shared-library
  loader, factory symbol, client core, hook installer) answer through
  explicit outcome arguments of the operation that consults them; every
  call that the code makes to one of them is appended to `World.trace`.
* `World.live` is ghost state: the module handles that were loaded and not
  yet unloaded.
* The recursive mutex `g_mutexSystem` and the `Log()` stream are not
  modelled: every operation runs to completion on one thread.
-/

namespace vr

/-- A pointer; `0` is the null pointer. -/
abbrev Ptr := Nat

/-- A `std::string` / C string. -/
abbrev Name := List Char

/-- Modelled from the spec: the enumeration `EVRInitError`, declared in
`openvr.h`. It has the codes that `openvr_api_public.cpp` names itself, and
`VRInitError_Other` for every other code, which only the client core can
produce. -/
inductive EVRInitError where
  | VRInitError_None
  | VRInitError_Init_InstallationNotFound
  | VRInitError_Init_InstallationCorrupt
  | VRInitError_Init_VRClientDLLNotFound
  | VRInitError_Init_FactoryNotFound
  | VRInitError_Init_InterfaceNotFound
  | VRInitError_Init_NotInitialized
  | VRInitError_Init_PathRegistryNotFound
  | VRInitError_Other (code : Nat)
  deriving DecidableEq, Repr

open EVRInitError

/-- One call made by the broker to an external collaborator. -/
inductive Event where
  | InitHooks
  | ShutdownHooks
  | CleanupInternalInterfaces
  | GetPaths
  | Path_IsDirectory
  | SharedLib_Load (result : Ptr)
  | SharedLib_GetFunction (module : Ptr) (result : Ptr)
  | SharedLib_Unload (module : Ptr)
  | fnFactory (result : Ptr)
  | Init (core : Ptr)
  | Cleanup (core : Ptr)
  | GetGenericInterface (core : Ptr) (name : Name) (result : Ptr)
  | HookVRInterface (name : Name) (iface : Ptr)
  | IsInterfaceVersionValid (core : Ptr) (name : Name)
  | BIsHmdPresent (core : Ptr)
  | GetEnglishStringForHmdError (core : Ptr) (error : EVRInitError)
  deriving DecidableEq, Repr

/-- The file-scope state of `openvr_api_public.cpp` together with the ghost
state of the embedding. -/
structure World where
  g_pVRModule : Ptr
  g_pHmdSystem : Ptr
  g_nVRToken : Nat
  live : List Ptr
  trace : List Event
  deriving DecidableEq, Repr

/-- The state at process start: the three statics hold their initialisers. -/
def World.initial : World :=
  { g_pVRModule := 0, g_pHmdSystem := 0, g_nVRToken := 0, live := [], trace := [] }

/-- Records one call to an external collaborator. -/
def emit (e : Event) (w : World) : World :=
  { w with trace := w.trace ++ [e] }

/-- Embeds `uint32_t VR_GetInitToken()`. -/
def VR_GetInitToken (w : World) : Nat :=
  w.g_nVRToken

/-- Modelled from the spec: `SharedLib_Load` of `sharedlibtools_public`, the
dynamic module loader `load(path) -> handle|null`. The handle it answers with
is the argument `result`; a non-null handle becomes live. -/
def SharedLib_Load (result : Ptr) (w : World) : World :=
  let w := emit (Event.SharedLib_Load result) w
  if result = 0 then w else { w with live := result :: w.live }

/-- Modelled from the spec: `SharedLib_Unload` of `sharedlibtools_public`, the
dynamic module loader `unload(handle)`. Unloading removes one live occurrence
of the handle; unloading the null handle does nothing. -/
def SharedLib_Unload (module : Ptr) (w : World) : World :=
  let w := emit (Event.SharedLib_Unload module) w
  if module = 0 then w else { w with live := w.live.erase module }

/-- What the external collaborators answer during one run of
`VR_LoadHmdSystemInternal`, in the order in which they are consulted. -/
structure LoadOutcome where
  /-- result of `CVRPathRegistry_Public::GetPaths` -/
  bReadPathRegistry : Bool
  /-- Embeds `Path_IsDirectory( sRuntimePath )` -/
  runtimeIsDirectory : Bool
  /-- Embeds `Path_IsDirectory( sTestPath )`, the `bin` subdirectory -/
  testPathIsDirectory : Bool
  /-- result of `SharedLib_Load( sDLLPath )` -/
  pMod : Ptr
  /-- result of `SharedLib_GetFunction( pMod, "VRClientCoreFactory" )` -/
  fnFactory : Ptr
  /-- result of `fnFactory( IVRClientCore_Version, &nReturnCode )` -/
  pClientCore : Ptr
  deriving DecidableEq, Repr

/-- Embeds `EVRInitError VR_LoadHmdSystemInternal()`. -/
def VR_LoadHmdSystemInternal (o : LoadOutcome) (w : World) : EVRInitError × World :=
  let w := emit Event.GetPaths w
  if !o.bReadPathRegistry then
    (VRInitError_Init_PathRegistryNotFound, w)
  else
    let w := emit Event.Path_IsDirectory w
    if !o.runtimeIsDirectory then
      (VRInitError_Init_InstallationNotFound, w)
    else
      let w := emit Event.Path_IsDirectory w
      if !o.testPathIsDirectory then
        (VRInitError_Init_InstallationCorrupt, w)
      else
        let w := SharedLib_Load o.pMod w
        if o.pMod = 0 then
          (VRInitError_Init_VRClientDLLNotFound, w)
        else
          let w := emit (Event.SharedLib_GetFunction o.pMod o.fnFactory) w
          if o.fnFactory = 0 then
            let w := SharedLib_Unload o.pMod w
            (VRInitError_Init_FactoryNotFound, w)
          else
            let w := emit (Event.fnFactory o.pClientCore) w
            let w := { w with g_pHmdSystem := o.pClientCore }
            if w.g_pHmdSystem = 0 then
              let w := SharedLib_Unload o.pMod w
              (VRInitError_Init_InterfaceNotFound, w)
            else
              let w := { w with g_pVRModule := o.pMod }
              (VRInitError_None, w)

/-- Embeds `uint32_t VR_InitInternal2( EVRInitError *peError, ... )`.
`initResult` is what `g_pHmdSystem->Init` answers when it is called and
`peError` tells whether the error out-parameter is non-null. The result is
the returned token and the value written through `peError`, if any. -/
def VR_InitInternal2 (o : LoadOutcome) (initResult : EVRInitError) (peError : Bool)
    (w : World) : (Nat × Option EVRInitError) × World :=
  let w := emit Event.InitHooks w
  let r := VR_LoadHmdSystemInternal o w
  let r := if r.1 = VRInitError_None then (initResult, emit (Event.Init r.2.g_pHmdSystem) r.2) else r
  let err := r.1
  let w := r.2
  let written := if peError then some err else none
  if err ≠ VRInitError_None then
    let w := SharedLib_Unload w.g_pVRModule w
    let w := { w with g_pHmdSystem := 0 }
    let w := { w with g_pVRModule := 0 }
    ((0, written), w)
  else
    let w := { w with g_nVRToken := (w.g_nVRToken + 1) % 2 ^ 32 }
    ((w.g_nVRToken, written), w)

/-- Embeds `uint32_t VR_InitInternal( EVRInitError *peError, ... )`. -/
def VR_InitInternal (o : LoadOutcome) (initResult : EVRInitError) (peError : Bool)
    (w : World) : (Nat × Option EVRInitError) × World :=
  VR_InitInternal2 o initResult peError w

/-- Embeds `void VR_ShutdownInternal()`. `apiPublic` tells whether the translation
unit is compiled with `VR_API_PUBLIC` defined. -/
def VR_ShutdownInternal (apiPublic : Bool) (w : World) : World :=
  let w := emit Event.ShutdownHooks w
  let w := if !apiPublic then emit Event.CleanupInternalInterfaces w else w
  let w :=
    if w.g_pHmdSystem ≠ 0 then
      let w := emit (Event.Cleanup w.g_pHmdSystem) w
      { w with g_pHmdSystem := 0 }
    else w
  let w :=
    if w.g_pVRModule ≠ 0 then
      let w := SharedLib_Unload w.g_pVRModule w
      { w with g_pVRModule := 0 }
    else w
  { w with g_nVRToken := (w.g_nVRToken + 1) % 2 ^ 32 }

/-- Embeds `std::string::substr( pos, count )`: the exception `std::out_of_range`
(here `none`) when `pos` exceeds the size, else at most `count` characters
from position `pos`. -/
def substr (s : Name) (pos count : Nat) : Option Name :=
  if pos > s.length then none else some ((s.drop pos).take count)

/-- Embeds `std::string::substr( pos )`: the exception `std::out_of_range` (here
`none`) when `pos` exceeds the size, else the characters from `pos` on. -/
def substrFrom (s : Name) (pos : Nat) : Option Name :=
  if pos > s.length then none else some (s.drop pos)

/-- The string literal `"FnTable"`. -/
def FnTable : Name := ['F', 'n', 'T', 'a', 'b', 'l', 'e']

/-- What `g_pHmdSystem->GetGenericInterface( name, peError )` answers: the
interface pointer and the error code it leaves in `*peError`. Within one call
of `VR_GetGenericInterface` every name is asked at most once, since each
recursive call is on a strictly shorter name. -/
abbrev CoreAnswers := Name → Ptr × EVRInitError

/-- Embeds `void *VR_GetGenericInterface( const char *pchInterfaceVersion,
EVRInitError *peError )`. The first component is `none` when the call is left
by the exception `std::out_of_range` of `substr(8)` (`Except.error` carries
the state at the throw), else the returned pointer and the value written
through `peError`, if any. -/
def VR_GetGenericInterface (core : CoreAnswers) (pchInterfaceVersion : Name) (peError : Bool)
    (w : World) : Option (Ptr × Option EVRInitError) × World :=
  if w.g_pHmdSystem = 0 then
    (some (0, if peError then some VRInitError_Init_NotInitialized else none), w)
  else
    let inner : Except World World :=
      if substr pchInterfaceVersion 0 7 = some FnTable then
        match hsub : substrFrom pchInterfaceVersion 8 with
        | none => Except.error w
        | some underlying =>
          have : underlying.length < pchInterfaceVersion.length := by
            unfold substrFrom at hsub
            split at hsub
            · exact absurd hsub (by simp)
            · have h1 : underlying = List.drop 8 pchInterfaceVersion := by
                simpa using hsub.symm
              rw [h1, List.length_drop]
              omega
          match VR_GetGenericInterface core underlying false w with
          | (none, w1) => Except.error w1
          | (some _, w1) => Except.ok w1
      else Except.ok w
    match inner with
    | Except.error w => (none, w)
    | Except.ok w =>
      let r := core pchInterfaceVersion
      let w := emit (Event.GetGenericInterface w.g_pHmdSystem pchInterfaceVersion r.1) w
      let w := emit (Event.HookVRInterface pchInterfaceVersion r.1) w
      (some (r.1, if peError then some r.2 else none), w)
termination_by pchInterfaceVersion.length

/-- Embeds `bool VR_IsInterfaceVersionValid( const char *pchInterfaceVersion )`.
`answer` is what `g_pHmdSystem->IsInterfaceVersionValid` answers when it is
called. -/
def VR_IsInterfaceVersionValid (answer : EVRInitError) (pchInterfaceVersion : Name)
    (w : World) : Bool × World :=
  if w.g_pHmdSystem = 0 then
    (false, w)
  else
    (decide (answer = VRInitError_None),
      emit (Event.IsInterfaceVersionValid w.g_pHmdSystem pchInterfaceVersion) w)

/-- Embeds `bool VR_IsHmdPresent()`. `present` is what `BIsHmdPresent` of the client
core answers when it is called. -/
def VR_IsHmdPresent (o : LoadOutcome) (present : Bool) (w : World) : Bool × World :=
  if w.g_pHmdSystem ≠ 0 then
    (present, emit (Event.BIsHmdPresent w.g_pHmdSystem) w)
  else
    let r := VR_LoadHmdSystemInternal o w
    let err := r.1
    let w := r.2
    if err ≠ VRInitError_None then
      (false, w)
    else
      let w := emit (Event.BIsHmdPresent w.g_pHmdSystem) w
      let bHasHmd := present
      let w := { w with g_pHmdSystem := 0 }
      let w := SharedLib_Unload w.g_pVRModule w
      let w := { w with g_pVRModule := 0 }
      (bHasHmd, w)

/-- Embeds `const char *VR_GetVRInitErrorAsEnglishDescription( EVRInitError error )`,
as far as the broker is concerned: the client core is asked when it is set,
else the local table of `hmderrors_public` is read. -/
def VR_GetVRInitErrorAsEnglishDescription (error : EVRInitError) (w : World) : World :=
  if w.g_pHmdSystem ≠ 0 then
    emit (Event.GetEnglishStringForHmdError w.g_pHmdSystem error) w
  else w

/-- Embeds `inline void outputError( const char* function, const EVRInitError& eError )`. -/
def outputError (eError : EVRInitError) (w : World) : World :=
  VR_GetVRInitErrorAsEnglishDescription eError w

/-- The capability accessors of `COpenVRContext` that are compiled in. -/
inductive Capability where
  | VRSystem
  | VRChaperone
  | VRChaperoneSetup
  | VRCompositor
  | VROverlay
  | VRRenderModels
  | VRExtendedDisplay
  | VRSettings
  | VRApplications
  | VRTrackedCamera
  | VRNotifications
  deriving DecidableEq, Repr

/-- The data members of `class COpenVRContext`. -/
structure COpenVRContext where
  m_pVRSystem : Ptr
  m_pVRChaperone : Ptr
  m_pVRChaperoneSetup : Ptr
  m_pVRCompositor : Ptr
  m_pVROverlay : Ptr
  m_pVRRenderModels : Ptr
  m_pVRExtendedDisplay : Ptr
  m_pVRSettings : Ptr
  m_pVRApplications : Ptr
  m_pVRTrackedCamera : Ptr
  m_pVRNotifications : Ptr
  deriving DecidableEq, Repr

/-- Embeds `void COpenVRContext::Clear()`. -/
def COpenVRContext.Clear (_ : COpenVRContext) : COpenVRContext :=
  { m_pVRSystem := 0
    m_pVRChaperone := 0
    m_pVRChaperoneSetup := 0
    m_pVRCompositor := 0
    m_pVROverlay := 0
    m_pVRRenderModels := 0
    m_pVRExtendedDisplay := 0
    m_pVRSettings := 0
    m_pVRApplications := 0
    m_pVRTrackedCamera := 0
    m_pVRNotifications := 0 }

/-- The member that the accessor of a capability reads and writes. -/
def COpenVRContext.slot (ctx : COpenVRContext) : Capability → Ptr
  | Capability.VRSystem => ctx.m_pVRSystem
  | Capability.VRChaperone => ctx.m_pVRChaperone
  | Capability.VRChaperoneSetup => ctx.m_pVRChaperoneSetup
  | Capability.VRCompositor => ctx.m_pVRCompositor
  | Capability.VROverlay => ctx.m_pVROverlay
  | Capability.VRRenderModels => ctx.m_pVRRenderModels
  | Capability.VRExtendedDisplay => ctx.m_pVRExtendedDisplay
  | Capability.VRSettings => ctx.m_pVRSettings
  | Capability.VRApplications => ctx.m_pVRApplications
  | Capability.VRTrackedCamera => ctx.m_pVRTrackedCamera
  | Capability.VRNotifications => ctx.m_pVRNotifications

/-- Assignment to the member that the accessor of a capability writes. -/
def COpenVRContext.setSlot (ctx : COpenVRContext) (c : Capability) (p : Ptr) : COpenVRContext :=
  match c with
  | Capability.VRSystem => { ctx with m_pVRSystem := p }
  | Capability.VRChaperone => { ctx with m_pVRChaperone := p }
  | Capability.VRChaperoneSetup => { ctx with m_pVRChaperoneSetup := p }
  | Capability.VRCompositor => { ctx with m_pVRCompositor := p }
  | Capability.VROverlay => { ctx with m_pVROverlay := p }
  | Capability.VRRenderModels => { ctx with m_pVRRenderModels := p }
  | Capability.VRExtendedDisplay => { ctx with m_pVRExtendedDisplay := p }
  | Capability.VRSettings => { ctx with m_pVRSettings := p }
  | Capability.VRApplications => { ctx with m_pVRApplications := p }
  | Capability.VRTrackedCamera => { ctx with m_pVRTrackedCamera := p }
  | Capability.VRNotifications => { ctx with m_pVRNotifications := p }

/-- The function-local statics of the calling module: `token` of `VRToken()`
and the storage `ctx` of `OpenVRInternal_ModuleContext()`. -/
structure ModuleState where
  VRToken : Nat
  ctx : COpenVRContext
  deriving DecidableEq, Repr

/-- The statics are zero-initialised. -/
def ModuleState.initial : ModuleState :=
  { VRToken := 0, ctx := COpenVRContext.Clear ⟨0, 0, 0, 0, 0, 0, 0, 0, 0, 0, 0⟩ }

/-- Embeds `inline void COpenVRContext::CheckClear()`. -/
def COpenVRContext.CheckClear (w : World) (m : ModuleState) : ModuleState :=
  if m.VRToken ≠ VR_GetInitToken w then
    let m := { m with ctx := m.ctx.Clear }
    { m with VRToken := VR_GetInitToken w }
  else m

/-- The body shared by the capability accessors `COpenVRContext::VRSystem()`,
`VRChaperone()`, ..., `VRNotifications()`, which differ in their member and in
their version string only. `Version` gives the version string of each
capability (`IVRSystem_Version`, ..., constants of `openvr.h`). The first
component is `none` when `VR_GetGenericInterface` is left by an exception,
else the returned pointer. -/
def COpenVRContext.accessor (Version : Capability → Name) (c : Capability) (core : CoreAnswers)
    (w : World) (m : ModuleState) : Option Ptr × World × ModuleState :=
  let m := COpenVRContext.CheckClear w m
  if m.ctx.slot c = 0 then
    match VR_GetGenericInterface core (Version c) true w with
    | (some (iface, eError), w) =>
      let m := { m with ctx := m.ctx.setSlot c iface }
      let w := match eError with
        | some e => outputError e w
        | none => w
      (some (m.ctx.slot c), w, m)
    | (none, w) => (none, w, m)
  else
    (some (m.ctx.slot c), w, m)

/-- Embeds `IVRSystem* COpenVRContext::VRSystem()`. -/
def COpenVRContext.VRSystem (Version : Capability → Name) :=
  COpenVRContext.accessor Version Capability.VRSystem

/-- Embeds `IVRChaperone* COpenVRContext::VRChaperone()`. -/
def COpenVRContext.VRChaperone (Version : Capability → Name) :=
  COpenVRContext.accessor Version Capability.VRChaperone

/-- Embeds `IVRChaperoneSetup* COpenVRContext::VRChaperoneSetup()`. -/
def COpenVRContext.VRChaperoneSetup (Version : Capability → Name) :=
  COpenVRContext.accessor Version Capability.VRChaperoneSetup

/-- Embeds `IVRCompositor* COpenVRContext::VRCompositor()`. -/
def COpenVRContext.VRCompositor (Version : Capability → Name) :=
  COpenVRContext.accessor Version Capability.VRCompositor

/-- Embeds `IVROverlay* COpenVRContext::VROverlay()`. -/
def COpenVRContext.VROverlay (Version : Capability → Name) :=
  COpenVRContext.accessor Version Capability.VROverlay

/-- Embeds `IVRRenderModels* COpenVRContext::VRRenderModels()`. -/
def COpenVRContext.VRRenderModels (Version : Capability → Name) :=
  COpenVRContext.accessor Version Capability.VRRenderModels

/-- Embeds `IVRExtendedDisplay* COpenVRContext::VRExtendedDisplay()`. -/
def COpenVRContext.VRExtendedDisplay (Version : Capability → Name) :=
  COpenVRContext.accessor Version Capability.VRExtendedDisplay

/-- Embeds `IVRSettings* COpenVRContext::VRSettings()`. -/
def COpenVRContext.VRSettings (Version : Capability → Name) :=
  COpenVRContext.accessor Version Capability.VRSettings

/-- Embeds `IVRApplications* COpenVRContext::VRApplications()`. -/
def COpenVRContext.VRApplications (Version : Capability → Name) :=
  COpenVRContext.accessor Version Capability.VRApplications

/-- Embeds `IVRTrackedCamera* COpenVRContext::VRTrackedCamera()`. -/
def COpenVRContext.VRTrackedCamera (Version : Capability → Name) :=
  COpenVRContext.accessor Version Capability.VRTrackedCamera

/-- Embeds `IVRNotifications* COpenVRContext::VRNotifications()`. -/
def COpenVRContext.VRNotifications (Version : Capability → Name) :=
  COpenVRContext.accessor Version Capability.VRNotifications

/-- One call of a public entry point of the broker, with the answers that the
external collaborators give during that call. -/
inductive Call where
  | Init (o : LoadOutcome) (initResult : EVRInitError) (peError : Bool)
  | Shutdown
  | GetGenericInterface (core : CoreAnswers) (pchInterfaceVersion : Name) (peError : Bool)
  | IsInterfaceVersionValid (answer : EVRInitError) (pchInterfaceVersion : Name)
  | IsHmdPresent (o : LoadOutcome) (present : Bool)

/-- The state after one call. -/
def Call.run (apiPublic : Bool) (c : Call) (w : World) : World :=
  match c with
  | Call.Init o initResult peError => (VR_InitInternal2 o initResult peError w).2
  | Call.Shutdown => VR_ShutdownInternal apiPublic w
  | Call.GetGenericInterface core name peError => (VR_GetGenericInterface core name peError w).2
  | Call.IsInterfaceVersionValid answer name => (VR_IsInterfaceVersionValid answer name w).2
  | Call.IsHmdPresent o present => (VR_IsHmdPresent o present w).2

/-- The state after a sequence of calls, the first of the list first. -/
def runCalls (apiPublic : Bool) : List Call → World → World
  | [], w => w
  | c :: cs, w => runCalls apiPublic cs (Call.run apiPublic c w)

/-- Every `Init` of the sequence is issued while the broker is Unloaded. -/
def InitOnlyWhenUnloaded (apiPublic : Bool) : List Call → World → Prop
  | [], _ => True
  | Call.Init o initResult peError :: cs, w =>
    (w.g_pVRModule = 0 ∧ w.g_pHmdSystem = 0) ∧
      InitOnlyWhenUnloaded apiPublic cs (Call.run apiPublic (Call.Init o initResult peError) w)
  | c :: cs, w => InitOnlyWhenUnloaded apiPublic cs (Call.run apiPublic c w)

/-- The live modules are exactly the one recorded in `g_pVRModule`, if any, and
the module and the client core are set together. -/
def ModuleInvariant (w : World) : Prop :=
  w.live = (if w.g_pVRModule = 0 then [] else [w.g_pVRModule]) ∧
    (w.g_pVRModule = 0 ↔ w.g_pHmdSystem = 0)

/-- Answers of the collaborators with which every stage of the load succeeds:
module handle `pMod`, client core `pClientCore`. -/
def LoadOutcome.ok (pMod pClientCore : Ptr) : LoadOutcome :=
  { bReadPathRegistry := true
    runtimeIsDirectory := true
    testPathIsDirectory := true
    pMod := pMod
    fnFactory := 1
    pClientCore := pClientCore }

/-- Answers of the collaborators when the path registry cannot be read. -/
def LoadOutcome.noRegistry : LoadOutcome :=
  { bReadPathRegistry := false
    runtimeIsDirectory := false
    testPathIsDirectory := false
    pMod := 0
    fnFactory := 0
    pClientCore := 0 }

/-- A Loaded state: module `3`, client core `5`, token `1`. -/
def World.loaded : World :=
  { g_pVRModule := 3, g_pHmdSystem := 5, g_nVRToken := 1, live := [3], trace := [] }

/-- A client core that answers every name with the pointer `100 + length`. -/
def coreByLength : CoreAnswers :=
  fun name => (100 + name.length, VRInitError_None)

/-- A client core that knows no interface. -/
def coreNull : CoreAnswers :=
  fun _ => (0, VRInitError_Init_InterfaceNotFound)

/-- The string literal `"FnTable:"`. -/
def FnTableColon : Name := ['F', 'n', 'T', 'a', 'b', 'l', 'e', ':']

/-- The name of the form prefix, delimiter, underlying name that the spec
calls a derived binding name: `"FnTable:" ++ X` for some `X`. -/
def IsDerivedBindingName (name : Name) : Prop :=
  ∃ X : Name, name = FnTableColon ++ X

/-- The tokens returned by the two `VR_InitInternal2` calls of two
Init/Shutdown cycles in sequence (the Shutdown that closes the second cycle
comes after both tokens are returned). -/
def twoCycleTokens (apiPublic : Bool) (o1 o2 : LoadOutcome) (i1 i2 : EVRInitError)
    (w : World) : Nat × Nat :=
  let r1 := VR_InitInternal2 o1 i1 false w
  let w := VR_ShutdownInternal apiPublic r1.2
  let r2 := VR_InitInternal2 o2 i2 false w
  (r1.1.1, r2.1.1)

/-- A state whose token is two increments away from wrapping around. -/
def World.nearWrap : World :=
  { g_pVRModule := 0, g_pHmdSystem := 0, g_nVRToken := 4294967294, live := [], trace := [] }

/-- The last three statements of `VR_GetGenericInterface` (the call of
`g_pHmdSystem->GetGenericInterface`, the call of `HookVRInterface` and the
return), named to state lemmas about the function. -/
def resolveAndHook (core : CoreAnswers) (pchInterfaceVersion : Name) (peError : Bool)
    (w : World) : Option (Ptr × Option EVRInitError) × World :=
  let r := core pchInterfaceVersion
  let w := emit (Event.GetGenericInterface w.g_pHmdSystem pchInterfaceVersion r.1) w
  let w := emit (Event.HookVRInterface pchInterfaceVersion r.1) w
  (some (r.1, if peError then some r.2 else none), w)

/-- The calls of the hook installer recorded in a trace, in order. -/
def hookCalls : List Event → List (Name × Ptr)
  | [] => []
  | Event.HookVRInterface name iface :: es => (name, iface) :: hookCalls es
  | _ :: es => hookCalls es

/-- The string literal `"IVRCore_001"`. -/
def IVRCore_001 : Name := ['I', 'V', 'R', 'C', 'o', 'r', 'e', '_', '0', '0', '1']

/-- The name `"FnTableZ"`: it begins with `"FnTable"` and is not of the form
`"FnTable:" ++ X`. -/
def FnTableZ : Name := ['F', 'n', 'T', 'a', 'b', 'l', 'e', 'Z']

/-- Two successful `Init` calls with no Shutdown between them; the path
registry points to another runtime at the second call, so the loader answers
with another module handle. -/
def twoInits : List Call :=
  [Call.Init (LoadOutcome.ok 1 5) VRInitError_None true,
   Call.Init (LoadOutcome.ok 2 6) VRInitError_None true]

/-- An Init/Shutdown cycle with lookups and probes around it. -/
def sampleSession : List Call :=
  [Call.IsHmdPresent (LoadOutcome.ok 1 5) true,
   Call.Init (LoadOutcome.ok 1 5) VRInitError_None true,
   Call.GetGenericInterface coreByLength IVRCore_001 true,
   Call.IsInterfaceVersionValid VRInitError_None IVRCore_001,
   Call.Shutdown,
   Call.Init LoadOutcome.noRegistry VRInitError_None true]

/-- Sample version strings for the capabilities, of the shape that `openvr.h`
gives to `IVRSystem_Version`, `IVRChaperone_Version`, and so on. -/
def sampleVersion : Capability → Name
  | Capability.VRSystem => "IVRSystem_019".toList
  | Capability.VRChaperone => "IVRChaperone_003".toList
  | Capability.VRChaperoneSetup => "IVRChaperoneSetup_006".toList
  | Capability.VRCompositor => "IVRCompositor_022".toList
  | Capability.VROverlay => "IVROverlay_019".toList
  | Capability.VRRenderModels => "IVRRenderModels_006".toList
  | Capability.VRExtendedDisplay => "IVRExtendedDisplay_001".toList
  | Capability.VRSettings => "IVRSettings_002".toList
  | Capability.VRApplications => "IVRApplications_006".toList
  | Capability.VRTrackedCamera => "IVRTrackedCamera_005".toList
  | Capability.VRNotifications => "IVRNotifications_002".toList

/-- A module whose remembered token is that of `World.loaded` and whose
slots are all unset. -/
def ModuleState.synced : ModuleState :=
  { VRToken := 1, ctx := ModuleState.initial.ctx }

/-- A call of `VRSystem()` in `World.loaded` against a client core that knows no
interface: the resolution yields null. -/
def nullResolution : Option Ptr × World × ModuleState :=
  COpenVRContext.accessor sampleVersion Capability.VRSystem coreNull World.loaded
    ModuleState.synced

/-- A module whose remembered token is that of `World.loaded` and which holds
pointers resolved in that generation for `VRSystem()` and `VRCompositor()`. -/
def ModuleState.cached : ModuleState :=
  { VRToken := 1
    ctx := { ModuleState.initial.ctx with m_pVRSystem := 77, m_pVRCompositor := 78 } }

/-! ## Frame lemmas for the ghost operations -/

@[simp]
theorem emit_g_pVRModule (e : Event) (w : World) : (emit e w).g_pVRModule = w.g_pVRModule := rfl

@[simp]
theorem emit_g_pHmdSystem (e : Event) (w : World) : (emit e w).g_pHmdSystem = w.g_pHmdSystem := rfl

@[simp]
theorem emit_g_nVRToken (e : Event) (w : World) : (emit e w).g_nVRToken = w.g_nVRToken := rfl

@[simp]
theorem emit_live (e : Event) (w : World) : (emit e w).live = w.live := rfl

@[simp]
theorem emit_trace (e : Event) (w : World) : (emit e w).trace = w.trace ++ [e] := rfl

@[simp]
theorem SharedLib_Load_g_pVRModule (h : Ptr) (w : World) :
    (SharedLib_Load h w).g_pVRModule = w.g_pVRModule := by
  unfold SharedLib_Load; split <;> rfl

@[simp]
theorem SharedLib_Load_g_pHmdSystem (h : Ptr) (w : World) :
    (SharedLib_Load h w).g_pHmdSystem = w.g_pHmdSystem := by
  unfold SharedLib_Load; split <;> rfl

@[simp]
theorem SharedLib_Load_g_nVRToken (h : Ptr) (w : World) :
    (SharedLib_Load h w).g_nVRToken = w.g_nVRToken := by
  unfold SharedLib_Load; split <;> rfl

@[simp]
theorem SharedLib_Load_trace (h : Ptr) (w : World) :
    (SharedLib_Load h w).trace = w.trace ++ [Event.SharedLib_Load h] := by
  unfold SharedLib_Load; split <;> rfl

theorem SharedLib_Load_live (h : Ptr) (w : World) :
    (SharedLib_Load h w).live = if h = 0 then w.live else h :: w.live := by
  unfold SharedLib_Load; split <;> rfl

@[simp]
theorem SharedLib_Unload_g_pVRModule (h : Ptr) (w : World) :
    (SharedLib_Unload h w).g_pVRModule = w.g_pVRModule := by
  unfold SharedLib_Unload; split <;> rfl

@[simp]
theorem SharedLib_Unload_g_pHmdSystem (h : Ptr) (w : World) :
    (SharedLib_Unload h w).g_pHmdSystem = w.g_pHmdSystem := by
  unfold SharedLib_Unload; split <;> rfl

@[simp]
theorem SharedLib_Unload_g_nVRToken (h : Ptr) (w : World) :
    (SharedLib_Unload h w).g_nVRToken = w.g_nVRToken := by
  unfold SharedLib_Unload; split <;> rfl

@[simp]
theorem SharedLib_Unload_trace (h : Ptr) (w : World) :
    (SharedLib_Unload h w).trace = w.trace ++ [Event.SharedLib_Unload h] := by
  unfold SharedLib_Unload; split <;> rfl

theorem SharedLib_Unload_live (h : Ptr) (w : World) :
    (SharedLib_Unload h w).live = if h = 0 then w.live else w.live.erase h := by
  unfold SharedLib_Unload; split <;> rfl

/-! ## Lemmas on the loader -/

/-- The answers with which every stage of `VR_LoadHmdSystemInternal` succeeds. -/
theorem VR_LoadHmdSystemInternal_none_iff (o : LoadOutcome) (w : World) :
    (VR_LoadHmdSystemInternal o w).1 = VRInitError_None ↔
      (o.bReadPathRegistry = true ∧ o.runtimeIsDirectory = true ∧
        o.testPathIsDirectory = true ∧ o.pMod ≠ 0 ∧ o.fnFactory ≠ 0 ∧ o.pClientCore ≠ 0) := by
  unfold VR_LoadHmdSystemInternal
  cases o.bReadPathRegistry <;> cases o.runtimeIsDirectory <;> cases o.testPathIsDirectory <;>
    by_cases h1 : o.pMod = 0 <;> by_cases h2 : o.fnFactory = 0 <;>
    by_cases h3 : o.pClientCore = 0 <;> simp [h1, h2, h3]

/-- The code that `VR_LoadHmdSystemInternal` returns depends on the answers of
the collaborators only, not on the state of the broker. -/
theorem VR_LoadHmdSystemInternal_code (o : LoadOutcome) (w w' : World) :
    (VR_LoadHmdSystemInternal o w).1 = (VR_LoadHmdSystemInternal o w').1 := by
  unfold VR_LoadHmdSystemInternal
  cases o.bReadPathRegistry <;> cases o.runtimeIsDirectory <;> cases o.testPathIsDirectory <;>
    by_cases h1 : o.pMod = 0 <;> by_cases h2 : o.fnFactory = 0 <;>
    by_cases h3 : o.pClientCore = 0 <;> simp [h1, h2, h3]

/-- `VR_LoadHmdSystemInternal` never touches the init token. -/
theorem VR_LoadHmdSystemInternal_token (o : LoadOutcome) (w : World) :
    (VR_LoadHmdSystemInternal o w).2.g_nVRToken = w.g_nVRToken := by
  unfold VR_LoadHmdSystemInternal
  cases o.bReadPathRegistry <;> cases o.runtimeIsDirectory <;> cases o.testPathIsDirectory <;>
    by_cases h1 : o.pMod = 0 <;> by_cases h2 : o.fnFactory = 0 <;>
    by_cases h3 : o.pClientCore = 0 <;> simp [h1, h2, h3]

/-- A successful `VR_InitInternal2` pre-increments the token modulo `2^32`
and returns the new value. -/
theorem VR_InitInternal2_success (o : LoadOutcome) (initResult : EVRInitError) (peError : Bool)
    (w : World) (hload : (VR_LoadHmdSystemInternal o w).1 = VRInitError_None)
    (hinit : initResult = VRInitError_None) :
    (VR_InitInternal2 o initResult peError w).1.1 = (w.g_nVRToken + 1) % 2 ^ 32 ∧
    (VR_InitInternal2 o initResult peError w).2.g_nVRToken = (w.g_nVRToken + 1) % 2 ^ 32 := by
  have htok := VR_LoadHmdSystemInternal_token o (emit Event.InitHooks w)
  rw [emit_g_nVRToken] at htok
  rw [VR_LoadHmdSystemInternal_code o w (emit Event.InitHooks w)] at hload
  unfold VR_InitInternal2
  simp [hload, hinit, htok]

/-- `VR_ShutdownInternal` increments the token modulo `2^32`. -/
theorem VR_ShutdownInternal_token (apiPublic : Bool) (w : World) :
    (VR_ShutdownInternal apiPublic w).g_nVRToken = (w.g_nVRToken + 1) % 2 ^ 32 := by
  unfold VR_ShutdownInternal
  cases apiPublic <;> by_cases h1 : w.g_pHmdSystem = 0 <;> by_cases h2 : w.g_pVRModule = 0 <;>
    simp [h1, h2]

/-! ## C1 -/

/-- C1: whenever `VR_InitInternal2` fails (the load returns a code other than
`VRInitError_None`, or the load succeeds and the client core's `Init` returns
such a code), from any broker state, it returns token 0, writes that failure
code through `peError` when it is supplied, leaves `g_nVRToken` as it was and
leaves both `g_pVRModule` and `g_pHmdSystem` null. -/
theorem C1_init_failure (o : LoadOutcome) (initResult : EVRInitError) (peError : Bool)
    (w : World)
    (hfail : (VR_LoadHmdSystemInternal o w).1 ≠ VRInitError_None ∨
      initResult ≠ VRInitError_None) :
    (VR_InitInternal2 o initResult peError w).1.1 = 0 ∧
    (VR_InitInternal2 o initResult peError w).1.2 =
      (if peError then
        some (if (VR_LoadHmdSystemInternal o w).1 = VRInitError_None
          then initResult else (VR_LoadHmdSystemInternal o w).1)
       else none) ∧
    (VR_InitInternal2 o initResult peError w).2.g_nVRToken = w.g_nVRToken ∧
    (VR_InitInternal2 o initResult peError w).2.g_pVRModule = 0 ∧
    (VR_InitInternal2 o initResult peError w).2.g_pHmdSystem = 0 := by
  have htok := VR_LoadHmdSystemInternal_token o (emit Event.InitHooks w)
  rw [emit_g_nVRToken] at htok
  rw [VR_LoadHmdSystemInternal_code o w (emit Event.InitHooks w)] at hfail ⊢
  unfold VR_InitInternal2
  by_cases hl : (VR_LoadHmdSystemInternal o (emit Event.InitHooks w)).1 = VRInitError_None
  · have hi : initResult ≠ VRInitError_None := by
      rcases hfail with h | h
      · exact absurd hl h
      · exact h
    simp [hl, hi, htok]
  · simp [hl, htok]

/-- C1 witnessed on the Loaded example state with an unreadable path registry. -/
theorem C1_init_failure_witness :
    ((VR_LoadHmdSystemInternal LoadOutcome.noRegistry World.loaded).1 ≠ VRInitError_None ∨
      VRInitError_None ≠ VRInitError_None) ∧
    (VR_InitInternal2 LoadOutcome.noRegistry VRInitError_None true World.loaded).1.1 = 0 ∧
    (VR_InitInternal2 LoadOutcome.noRegistry VRInitError_None true World.loaded).1.2 =
      (if true then
        some (if (VR_LoadHmdSystemInternal LoadOutcome.noRegistry World.loaded).1 =
            VRInitError_None
          then VRInitError_None
          else (VR_LoadHmdSystemInternal LoadOutcome.noRegistry World.loaded).1)
       else none) ∧
    (VR_InitInternal2 LoadOutcome.noRegistry VRInitError_None true World.loaded).2.g_nVRToken =
      World.loaded.g_nVRToken ∧
    (VR_InitInternal2 LoadOutcome.noRegistry VRInitError_None true World.loaded).2.g_pVRModule
      = 0 ∧
    (VR_InitInternal2 LoadOutcome.noRegistry VRInitError_None true World.loaded).2.g_pHmdSystem
      = 0 :=
  ⟨Or.inl (by decide),
    C1_init_failure LoadOutcome.noRegistry VRInitError_None true World.loaded
      (Or.inl (by decide))⟩

/-! ## C2 -/

/-- C2, as stated, fails: from the token `2^32 - 2` the first of two
successful Init/Shutdown cycles returns `2^32 - 1`, the Shutdown wraps the
token to `0`, and the second cycle returns `1`, which is not greater. -/
theorem C2_counterexample :
    World.nearWrap.g_nVRToken < 2 ^ 32 - 1 ∧
    (VR_LoadHmdSystemInternal (LoadOutcome.ok 3 5) World.nearWrap).1 = VRInitError_None ∧
    twoCycleTokens true (LoadOutcome.ok 3 5) (LoadOutcome.ok 3 5) VRInitError_None
      VRInitError_None World.nearWrap = (4294967295, 1) ∧
    ¬ ((twoCycleTokens true (LoadOutcome.ok 3 5) (LoadOutcome.ok 3 5) VRInitError_None
        VRInitError_None World.nearWrap).1 <
      (twoCycleTokens true (LoadOutcome.ok 3 5) (LoadOutcome.ok 3 5) VRInitError_None
        VRInitError_None World.nearWrap).2) := by
  decide

/-- C2, amended: with token `t < 2^32 - 1`, a successful `VR_InitInternal2`
sets the token to `t + 1` and returns `t + 1`; two successful Init/Shutdown
cycles in sequence return two distinct tokens, and the second is strictly
greater than the first (they are `t + 1` and `t + 3`) when `t < 2^32 - 3`, that
is when the 32-bit counter does not wrap within the two cycles. -/
theorem C2_init_success_token (apiPublic : Bool) (o1 o2 : LoadOutcome) (peError : Bool)
    (w : World) (ht : w.g_nVRToken < 2 ^ 32 - 1)
    (h1 : (VR_LoadHmdSystemInternal o1 w).1 = VRInitError_None)
    (h2 : (VR_LoadHmdSystemInternal o2 w).1 = VRInitError_None) :
    (VR_InitInternal2 o1 VRInitError_None peError w).2.g_nVRToken = w.g_nVRToken + 1 ∧
    (VR_InitInternal2 o1 VRInitError_None peError w).1.1 = w.g_nVRToken + 1 ∧
    (twoCycleTokens apiPublic o1 o2 VRInitError_None VRInitError_None w).1 ≠
      (twoCycleTokens apiPublic o1 o2 VRInitError_None VRInitError_None w).2 ∧
    (w.g_nVRToken < 2 ^ 32 - 3 →
      twoCycleTokens apiPublic o1 o2 VRInitError_None VRInitError_None w =
        (w.g_nVRToken + 1, w.g_nVRToken + 3) ∧
      (twoCycleTokens apiPublic o1 o2 VRInitError_None VRInitError_None w).1 <
        (twoCycleTokens apiPublic o1 o2 VRInitError_None VRInitError_None w).2) := by
  have hs := VR_InitInternal2_success o1 VRInitError_None peError w h1 rfl
  have hs1 := VR_InitInternal2_success o1 VRInitError_None false w h1 rfl
  have hs2 := VR_InitInternal2_success o2 VRInitError_None false
    (VR_ShutdownInternal apiPublic (VR_InitInternal2 o1 VRInitError_None false w).2)
    ((VR_LoadHmdSystemInternal_code o2 _ w).trans h2) rfl
  rw [VR_ShutdownInternal_token, hs1.2] at hs2
  have e1 : (twoCycleTokens apiPublic o1 o2 VRInitError_None VRInitError_None w).1 =
      (w.g_nVRToken + 1) % 2 ^ 32 := hs1.1
  have e2 : (twoCycleTokens apiPublic o1 o2 VRInitError_None VRInitError_None w).2 =
      (((w.g_nVRToken + 1) % 2 ^ 32 + 1) % 2 ^ 32 + 1) % 2 ^ 32 := hs2.1
  refine ⟨?_, ?_, ?_, ?_⟩
  · rw [hs.2]; omega
  · rw [hs.1]; omega
  · rw [e1, e2]; omega
  · intro h3
    have p1 : (twoCycleTokens apiPublic o1 o2 VRInitError_None VRInitError_None w).1 =
        w.g_nVRToken + 1 := by rw [e1]; omega
    have p2 : (twoCycleTokens apiPublic o1 o2 VRInitError_None VRInitError_None w).2 =
        w.g_nVRToken + 3 := by rw [e2]; omega
    refine ⟨Prod.ext p1 p2, ?_⟩
    rw [p1, p2]; omega

/-- C2, amended, witnessed on the initial state. -/
theorem C2_init_success_token_witness :
    (VR_InitInternal2 (LoadOutcome.ok 3 5) VRInitError_None true World.initial).1.1 = 0 + 1 ∧
    twoCycleTokens true (LoadOutcome.ok 3 5) (LoadOutcome.ok 4 6) VRInitError_None
      VRInitError_None World.initial = (0 + 1, 0 + 3) :=
  have h := C2_init_success_token true (LoadOutcome.ok 3 5) (LoadOutcome.ok 4 6) true
    World.initial (by decide) (by decide) (by decide)
  ⟨h.2.1, (h.2.2.2 (by decide)).1⟩

/-! ## C4 -/

/-- C4: from every broker state with token `t < 2^32 - 1`,
`VR_ShutdownInternal` leaves the token at `t + 1` and both `g_pVRModule` and
`g_pHmdSystem` null; the client core's `Cleanup` is called exactly when
`g_pHmdSystem` was set and the module is unloaded exactly when `g_pVRModule`
was set; a second Shutdown in a row calls neither again and changes only the
token (besides calling the hook shutdown again). -/
theorem C4_shutdown (apiPublic : Bool) (w : World) (ht : w.g_nVRToken < 2 ^ 32 - 1) :
    (VR_ShutdownInternal apiPublic w).g_nVRToken = w.g_nVRToken + 1 ∧
    (VR_ShutdownInternal apiPublic w).g_pVRModule = 0 ∧
    (VR_ShutdownInternal apiPublic w).g_pHmdSystem = 0 ∧
    (VR_ShutdownInternal apiPublic w).trace =
      w.trace ++ [Event.ShutdownHooks] ++
        (if apiPublic then [] else [Event.CleanupInternalInterfaces]) ++
        (if w.g_pHmdSystem ≠ 0 then [Event.Cleanup w.g_pHmdSystem] else []) ++
        (if w.g_pVRModule ≠ 0 then [Event.SharedLib_Unload w.g_pVRModule] else []) ∧
    (VR_ShutdownInternal apiPublic w).live =
      (if w.g_pVRModule ≠ 0 then w.live.erase w.g_pVRModule else w.live) ∧
    VR_ShutdownInternal apiPublic (VR_ShutdownInternal apiPublic w) =
      { VR_ShutdownInternal apiPublic w with
        g_nVRToken := (w.g_nVRToken + 2) % 2 ^ 32
        trace := (VR_ShutdownInternal apiPublic w).trace ++ [Event.ShutdownHooks] ++
          (if apiPublic then [] else [Event.CleanupInternalInterfaces]) } := by
  have e : (w.g_nVRToken + 1) % 4294967296 = w.g_nVRToken + 1 := by omega
  have e2 : (w.g_nVRToken + 1 + 1) % 4294967296 = (w.g_nVRToken + 2) % 4294967296 := by omega
  unfold VR_ShutdownInternal
  cases apiPublic <;> by_cases h1 : w.g_pHmdSystem = 0 <;> by_cases h2 : w.g_pVRModule = 0 <;>
    simp [h1, h2, e, e2, SharedLib_Unload_live, emit]

/-- C4 witnessed on the Loaded example state. -/
theorem C4_shutdown_witness :
    World.loaded.g_nVRToken < 2 ^ 32 - 1 ∧
    (VR_ShutdownInternal true World.loaded).g_nVRToken = World.loaded.g_nVRToken + 1 ∧
    (VR_ShutdownInternal true World.loaded).g_pVRModule = 0 ∧
    (VR_ShutdownInternal true World.loaded).g_pHmdSystem = 0 :=
  have h := C4_shutdown true World.loaded (by decide)
  ⟨by decide, h.1, h.2.1, h.2.2.1⟩

/-! ## C5 -/

/-- C5: for every interface name, `VR_GetGenericInterface` called while
`g_pHmdSystem` is null returns the null pointer, writes
`VRInitError_Init_NotInitialized` through `peError` when it is supplied, and
leaves the whole state, trace of external calls included, as it was: neither
the client core nor the hook installer is invoked. -/
theorem C5_get_interface_unloaded (core : CoreAnswers) (name : Name) (peError : Bool)
    (w : World) (hU : w.g_pHmdSystem = 0) :
    VR_GetGenericInterface core name peError w =
      (some (0, if peError then some VRInitError_Init_NotInitialized else none), w) := by
  rw [VR_GetGenericInterface]
  simp [hU]

/-- C5 witnessed on the initial state with the name `"FnTable"`. -/
theorem C5_get_interface_unloaded_witness :
    World.initial.g_pHmdSystem = 0 ∧
    VR_GetGenericInterface coreByLength FnTable true World.initial =
      (some (0, if true then some VRInitError_Init_NotInitialized else none), World.initial) :=
  ⟨rfl, C5_get_interface_unloaded coreByLength FnTable true World.initial rfl⟩

/-! ## C7 -/

/-- C7: from every Unloaded state and for every answer of the collaborators,
`VR_IsHmdPresent` leaves the token unchanged and the broker Unloaded (both
`g_pVRModule` and `g_pHmdSystem` null) with no module left live; it returns
false when the transient load fails, in particular when the runtime path is
not a directory, and otherwise the answer of `BIsHmdPresent` of the transient
client core, which is unloaded again. -/
theorem C7_is_hmd_present_unloaded (o : LoadOutcome) (present : Bool) (w : World)
    (hU : w.g_pVRModule = 0 ∧ w.g_pHmdSystem = 0) :
    (VR_IsHmdPresent o present w).2.g_nVRToken = w.g_nVRToken ∧
    (VR_IsHmdPresent o present w).2.g_pVRModule = 0 ∧
    (VR_IsHmdPresent o present w).2.g_pHmdSystem = 0 ∧
    (VR_IsHmdPresent o present w).2.live = w.live ∧
    ((VR_LoadHmdSystemInternal o w).1 ≠ VRInitError_None →
      (VR_IsHmdPresent o present w).1 = false) ∧
    (o.runtimeIsDirectory = false → (VR_IsHmdPresent o present w).1 = false) ∧
    ((VR_LoadHmdSystemInternal o w).1 = VRInitError_None →
      (VR_IsHmdPresent o present w).1 = present ∧
      (VR_IsHmdPresent o present w).2.trace =
        w.trace ++ [Event.GetPaths, Event.Path_IsDirectory, Event.Path_IsDirectory,
          Event.SharedLib_Load o.pMod, Event.SharedLib_GetFunction o.pMod o.fnFactory,
          Event.fnFactory o.pClientCore, Event.BIsHmdPresent o.pClientCore,
          Event.SharedLib_Unload o.pMod]) := by
  obtain ⟨hm, hh⟩ := hU
  unfold VR_IsHmdPresent VR_LoadHmdSystemInternal
  cases o.bReadPathRegistry <;> cases o.runtimeIsDirectory <;> cases o.testPathIsDirectory <;>
    by_cases h1 : o.pMod = 0 <;> by_cases h2 : o.fnFactory = 0 <;>
    by_cases h3 : o.pClientCore = 0 <;>
    simp [h1, h2, h3, hm, hh, SharedLib_Unload_live, SharedLib_Load_live]

/-- C7 witnessed on the initial state with a load that succeeds. -/
theorem C7_is_hmd_present_unloaded_witness :
    (World.initial.g_pVRModule = 0 ∧ World.initial.g_pHmdSystem = 0) ∧
    (VR_IsHmdPresent (LoadOutcome.ok 3 5) true World.initial).2.g_nVRToken =
      World.initial.g_nVRToken ∧
    (VR_IsHmdPresent (LoadOutcome.ok 3 5) true World.initial).2.g_pVRModule = 0 ∧
    (VR_IsHmdPresent (LoadOutcome.ok 3 5) true World.initial).2.g_pHmdSystem = 0 ∧
    (VR_IsHmdPresent (LoadOutcome.ok 3 5) true World.initial).1 = true :=
  have h := C7_is_hmd_present_unloaded (LoadOutcome.ok 3 5) true World.initial ⟨rfl, rfl⟩
  ⟨⟨rfl, rfl⟩, h.1, h.2.1, h.2.2.1, (h.2.2.2.2.2.2 (by decide)).1⟩

/-! ## C8 -/

/-- C8: `VR_LoadHmdSystemInternal` returns the code of the first failing stage
in the order registry, runtime directory, `bin` directory, module load, factory
symbol, client-core interface, and `VRInitError_None` exactly when all six
stages succeed; `VR_InitInternal2` returns token 0 and writes exactly this
code through `peError` when it is not `VRInitError_None`. -/
theorem C8_first_failing_stage (o : LoadOutcome) (initResult : EVRInitError) (w : World) :
    ((VR_LoadHmdSystemInternal o w).1 = VRInitError_Init_PathRegistryNotFound ↔
      o.bReadPathRegistry = false) ∧
    ((VR_LoadHmdSystemInternal o w).1 = VRInitError_Init_InstallationNotFound ↔
      (o.bReadPathRegistry = true ∧ o.runtimeIsDirectory = false)) ∧
    ((VR_LoadHmdSystemInternal o w).1 = VRInitError_Init_InstallationCorrupt ↔
      (o.bReadPathRegistry = true ∧ o.runtimeIsDirectory = true ∧
        o.testPathIsDirectory = false)) ∧
    ((VR_LoadHmdSystemInternal o w).1 = VRInitError_Init_VRClientDLLNotFound ↔
      (o.bReadPathRegistry = true ∧ o.runtimeIsDirectory = true ∧
        o.testPathIsDirectory = true ∧ o.pMod = 0)) ∧
    ((VR_LoadHmdSystemInternal o w).1 = VRInitError_Init_FactoryNotFound ↔
      (o.bReadPathRegistry = true ∧ o.runtimeIsDirectory = true ∧
        o.testPathIsDirectory = true ∧ o.pMod ≠ 0 ∧ o.fnFactory = 0)) ∧
    ((VR_LoadHmdSystemInternal o w).1 = VRInitError_Init_InterfaceNotFound ↔
      (o.bReadPathRegistry = true ∧ o.runtimeIsDirectory = true ∧
        o.testPathIsDirectory = true ∧ o.pMod ≠ 0 ∧ o.fnFactory ≠ 0 ∧ o.pClientCore = 0)) ∧
    ((VR_LoadHmdSystemInternal o w).1 = VRInitError_None ↔
      (o.bReadPathRegistry = true ∧ o.runtimeIsDirectory = true ∧
        o.testPathIsDirectory = true ∧ o.pMod ≠ 0 ∧ o.fnFactory ≠ 0 ∧ o.pClientCore ≠ 0)) ∧
    ((VR_LoadHmdSystemInternal o w).1 ≠ VRInitError_None →
      (VR_InitInternal2 o initResult true w).1 = (0, some (VR_LoadHmdSystemInternal o w).1)) := by
  refine ⟨?_, ?_, ?_, ?_, ?_, ?_, ?_, ?_⟩
  case refine_8 =>
    intro hne
    rw [VR_LoadHmdSystemInternal_code o w (emit Event.InitHooks w)] at hne ⊢
    unfold VR_InitInternal2
    simp [hne]
  all_goals
    unfold VR_LoadHmdSystemInternal
    cases o.bReadPathRegistry <;> cases o.runtimeIsDirectory <;>
      cases o.testPathIsDirectory <;> by_cases h1 : o.pMod = 0 <;>
      by_cases h2 : o.fnFactory = 0 <;> by_cases h3 : o.pClientCore = 0 <;>
      simp [h1, h2, h3]

/-- C8 witnessed: a missing registry surfaces from `VR_InitInternal2` as
`VRInitError_Init_PathRegistryNotFound`. -/
theorem C8_first_failing_stage_witness :
    (VR_LoadHmdSystemInternal LoadOutcome.noRegistry World.initial).1 ≠ VRInitError_None ∧
    (VR_InitInternal2 LoadOutcome.noRegistry VRInitError_None true World.initial).1 =
      (0, some (VR_LoadHmdSystemInternal LoadOutcome.noRegistry World.initial).1) ∧
    (VR_LoadHmdSystemInternal LoadOutcome.noRegistry World.initial).1 =
      VRInitError_Init_PathRegistryNotFound :=
  have h := C8_first_failing_stage LoadOutcome.noRegistry VRInitError_None World.initial
  ⟨by decide, h.2.2.2.2.2.2.2 (by decide), h.1.2 rfl⟩

/-! ## Lemmas on `VR_GetGenericInterface` -/

theorem substrFrom_eq (s : Name) (pos : Nat) :
    substrFrom s pos = if pos ≤ s.length then some (s.drop pos) else none := by
  unfold substrFrom
  by_cases h : pos ≤ s.length
  · simp [h, Nat.not_lt.mpr h]
  · simp [h, Nat.lt_of_not_le h]

/-- One unfolding of `VR_GetGenericInterface` in the Loaded state: a name that
begins with `"FnTable"` and has fewer than 8 characters makes `substr(8)`
throw; a longer one recurses on the name without its first 8 characters. -/
theorem VR_GetGenericInterface_step (core : CoreAnswers) (name : Name) (peError : Bool)
    (w : World) (hL : w.g_pHmdSystem ≠ 0) :
    VR_GetGenericInterface core name peError w =
      if substr name 0 7 = some FnTable then
        if 8 ≤ name.length then
          match VR_GetGenericInterface core (name.drop 8) false w with
          | (none, w1) => (none, w1)
          | (some _, w1) => resolveAndHook core name peError w1
        else (none, w)
      else resolveAndHook core name peError w := by
  rw [VR_GetGenericInterface]
  simp only [hL, if_false]
  by_cases hp : substr name 0 7 = some FnTable
  · simp only [hp, if_true]
    by_cases h8 : 8 ≤ name.length
    · simp only [h8, if_true]
      have hs : substrFrom name 8 = some (name.drop 8) := by
        rw [substrFrom_eq]; simp [h8]
      split
      · rename_i w2 heq
        split at heq
        · rename_i hn; rw [hs] at hn; exact absurd hn (by simp)
        · rename_i u hu
          rw [hs] at hu
          have hu' : name.drop 8 = u := by simpa using hu
          subst hu'
          split at heq
          · rename_i w3 hw3
            try rw [hw3]
            simp at heq; simp [heq]
          · exact absurd heq (by simp)
      · rename_i w2 heq
        split at heq
        · rename_i hn; rw [hs] at hn; exact absurd hn (by simp)
        · rename_i u hu
          rw [hs] at hu
          have hu' : name.drop 8 = u := by simpa using hu
          subst hu'
          split at heq
          · exact absurd heq (by simp)
          · rename_i v w3 hw3
            try rw [hw3]
            simp at heq; simp [heq, resolveAndHook]
    · simp only [h8, if_false]
      have hs : substrFrom name 8 = none := by
        rw [substrFrom_eq]; simp [h8]
      split
      · rename_i w2 heq
        split at heq
        · simp at heq; simp [heq]
        · rename_i u hu; rw [hs] at hu; exact absurd hu (by simp)
      · rename_i w2 heq
        split at heq
        · exact absurd heq (by simp)
        · rename_i u hu; rw [hs] at hu; exact absurd hu (by simp)
  · simp [hp, resolveAndHook]

/-- In the Loaded state a name that does not begin with `"FnTable"` is
resolved by one call of the client core and one call of the hook installer. -/
theorem VR_GetGenericInterface_plain (core : CoreAnswers) (name : Name) (peError : Bool)
    (w : World) (hL : w.g_pHmdSystem ≠ 0) (hp : substr name 0 7 ≠ some FnTable) :
    VR_GetGenericInterface core name peError w = resolveAndHook core name peError w := by
  rw [VR_GetGenericInterface_step core name peError w hL]
  simp [hp]

/-- `VR_GetGenericInterface` changes nothing of the state but the trace. -/
theorem VR_GetGenericInterface_frame (core : CoreAnswers) (w : World) :
    ∀ (n : Nat) (name : Name) (peError : Bool), name.length ≤ n →
      (VR_GetGenericInterface core name peError w).2.g_pVRModule = w.g_pVRModule ∧
      (VR_GetGenericInterface core name peError w).2.g_pHmdSystem = w.g_pHmdSystem ∧
      (VR_GetGenericInterface core name peError w).2.g_nVRToken = w.g_nVRToken ∧
      (VR_GetGenericInterface core name peError w).2.live = w.live := by
  intro n
  induction n with
  | zero =>
    intro name peError hl
    have hn : name = [] := by simpa using hl
    subst hn
    by_cases hL : w.g_pHmdSystem = 0
    · rw [VR_GetGenericInterface]; simp [hL]
    · rw [VR_GetGenericInterface_plain core [] peError w hL (by simp [substr, FnTable])]
      simp [resolveAndHook]
  | succ n ih =>
    intro name peError hl
    by_cases hL : w.g_pHmdSystem = 0
    · rw [VR_GetGenericInterface]; simp [hL]
    · rw [VR_GetGenericInterface_step core name peError w hL]
      by_cases hp : substr name 0 7 = some FnTable
      · by_cases h8 : 8 ≤ name.length
        · have hlen : (name.drop 8).length ≤ n := by
            rw [List.length_drop]; omega
          have hi := ih (name.drop 8) false hlen
          simp only [hp, h8, if_true]
          split
          · rename_i w1 heq
            rw [heq] at hi
            exact hi
          · rename_i v w1 heq
            rw [heq] at hi
            simpa [resolveAndHook] using hi
        · simp [hp, h8]
      · simp [hp, resolveAndHook]

/-! ## C6 -/

/-- C6 evaluated at the request `"FnTable:" ++ "FnTableZ"` in a Loaded state:
the underlying name `"FnTableZ"` passes the seven-character test for
`"FnTable"` and loses eight characters, so the hook installer is called three
times, first with the empty name; `"FnTable:" ++ "FnTable"` is left by
`std::out_of_range` with no hook call at all. -/
theorem C6_three_hook_calls :
    ¬ IsDerivedBindingName FnTableZ ∧
    hookCalls (VR_GetGenericInterface coreByLength (FnTableColon ++ FnTableZ) true
      World.loaded).2.trace =
      [([], 100), (FnTableZ, 108), (FnTableColon ++ FnTableZ, 116)] ∧
    VR_GetGenericInterface coreByLength (FnTableColon ++ FnTable) true World.loaded =
      (none, World.loaded) := by
  refine ⟨?_, ?_, ?_⟩
  · rintro ⟨X, hX⟩
    simp [FnTableZ, FnTableColon] at hX
  · simp [VR_GetGenericInterface, World.loaded, coreByLength, substr, substrFrom, FnTable,
      FnTableColon, FnTableZ, emit, hookCalls]
  · simp [VR_GetGenericInterface, World.loaded, coreByLength, substr, substrFrom, FnTable,
      FnTableColon, emit]

/-- The part of C6 that the code satisfies: in a Loaded state, for an
underlying name `X` that does not begin with `"FnTable"`, the request
`"FnTable:" ++ X` resolves and hooks `X`, then resolves and hooks
`"FnTable:" ++ X`, and returns the pointer of the latter. -/
theorem VR_GetGenericInterface_derived (core : CoreAnswers) (X : Name) (peError : Bool)
    (w : World) (hL : w.g_pHmdSystem ≠ 0) (hX : substr X 0 7 ≠ some FnTable) :
    VR_GetGenericInterface core (FnTableColon ++ X) peError w =
      (some ((core (FnTableColon ++ X)).1,
          if peError then some (core (FnTableColon ++ X)).2 else none),
        { w with trace := w.trace ++
            [Event.GetGenericInterface w.g_pHmdSystem X (core X).1,
             Event.HookVRInterface X (core X).1,
             Event.GetGenericInterface w.g_pHmdSystem (FnTableColon ++ X)
               (core (FnTableColon ++ X)).1,
             Event.HookVRInterface (FnTableColon ++ X) (core (FnTableColon ++ X)).1] }) := by
  rw [VR_GetGenericInterface_step core (FnTableColon ++ X) peError w hL]
  have h1 : substr (FnTableColon ++ X) 0 7 = some FnTable := by
    simp [substr, FnTableColon, FnTable]
  have h2 : 8 ≤ (FnTableColon ++ X).length := by simp [FnTableColon]
  have h3 : (FnTableColon ++ X).drop 8 = X := by simp [FnTableColon]
  simp only [h1, h2, if_true, h3]
  rw [VR_GetGenericInterface_plain core X false w hL hX]
  simp [resolveAndHook, emit]

/-! ## C3 -/

/-- The state after a successful `VR_InitInternal2`, whatever the state
before: the module is loaded and the factory called, the new handle and client
core overwrite the fields, nothing is unloaded, the token is incremented. -/
theorem VR_InitInternal2_success_state (o : LoadOutcome) (peError : Bool) (w : World)
    (hload : (VR_LoadHmdSystemInternal o w).1 = VRInitError_None) :
    VR_InitInternal2 o VRInitError_None peError w =
      (((w.g_nVRToken + 1) % 2 ^ 32, if peError then some VRInitError_None else none),
        { g_pVRModule := o.pMod
          g_pHmdSystem := o.pClientCore
          g_nVRToken := (w.g_nVRToken + 1) % 2 ^ 32
          live := o.pMod :: w.live
          trace := w.trace ++ [Event.InitHooks, Event.GetPaths, Event.Path_IsDirectory,
            Event.Path_IsDirectory, Event.SharedLib_Load o.pMod,
            Event.SharedLib_GetFunction o.pMod o.fnFactory, Event.fnFactory o.pClientCore,
            Event.Init o.pClientCore] }) := by
  obtain ⟨a, b, c, d, e, f⟩ := (VR_LoadHmdSystemInternal_none_iff o w).mp hload
  unfold VR_InitInternal2 VR_LoadHmdSystemInternal
  simp [a, b, c, d, e, f, SharedLib_Load, emit]

/-- C3, as stated, fails: after a successful Init from the initial state
(token 1), a second successful Init with no Shutdown between returns token 2,
sets the global token to 2, and calls the module loader and the factory
again. -/
theorem C3_counterexample :
    (VR_InitInternal2 (LoadOutcome.ok 3 5) VRInitError_None true World.initial).1 =
      (1, some VRInitError_None) ∧
    (VR_InitInternal2 (LoadOutcome.ok 3 5) VRInitError_None true
      (VR_InitInternal2 (LoadOutcome.ok 3 5) VRInitError_None true World.initial).2).1 =
      (2, some VRInitError_None) ∧
    (VR_InitInternal2 (LoadOutcome.ok 3 5) VRInitError_None true
      (VR_InitInternal2 (LoadOutcome.ok 3 5) VRInitError_None true World.initial).2).2 =
      { g_pVRModule := 3
        g_pHmdSystem := 5
        g_nVRToken := 2
        live := [3, 3]
        trace := [Event.InitHooks, Event.GetPaths, Event.Path_IsDirectory,
          Event.Path_IsDirectory, Event.SharedLib_Load 3, Event.SharedLib_GetFunction 3 1,
          Event.fnFactory 5, Event.Init 5,
          Event.InitHooks, Event.GetPaths, Event.Path_IsDirectory,
          Event.Path_IsDirectory, Event.SharedLib_Load 3, Event.SharedLib_GetFunction 3 1,
          Event.fnFactory 5, Event.Init 5] } := by
  decide

/-- C3, amended: in the Loaded state reached by a successful Init, a second
successful Init with no Shutdown between (token below `2^32 - 1`) runs the
whole load again: one further call each of the module loader, the symbol
lookup, the factory and the client core's `Init`, no unload; the new handle
and client core replace the recorded ones, the global token is incremented
and the call returns the first token plus one. -/
theorem C3_second_init_reloads (o1 o2 : LoadOutcome) (pe1 pe2 : Bool) (w : World)
    (h1 : (VR_LoadHmdSystemInternal o1 w).1 = VRInitError_None)
    (h2 : (VR_LoadHmdSystemInternal o2 w).1 = VRInitError_None)
    (ht : (VR_InitInternal2 o1 VRInitError_None pe1 w).1.1 < 2 ^ 32 - 1) :
    (VR_InitInternal2 o1 VRInitError_None pe1 w).2.g_pHmdSystem ≠ 0 ∧
    VR_InitInternal2 o2 VRInitError_None pe2 (VR_InitInternal2 o1 VRInitError_None pe1 w).2 =
      (((VR_InitInternal2 o1 VRInitError_None pe1 w).1.1 + 1,
          if pe2 then some VRInitError_None else none),
        { g_pVRModule := o2.pMod
          g_pHmdSystem := o2.pClientCore
          g_nVRToken := (VR_InitInternal2 o1 VRInitError_None pe1 w).2.g_nVRToken + 1
          live := o2.pMod :: (VR_InitInternal2 o1 VRInitError_None pe1 w).2.live
          trace := (VR_InitInternal2 o1 VRInitError_None pe1 w).2.trace ++
            [Event.InitHooks, Event.GetPaths, Event.Path_IsDirectory,
             Event.Path_IsDirectory, Event.SharedLib_Load o2.pMod,
             Event.SharedLib_GetFunction o2.pMod o2.fnFactory, Event.fnFactory o2.pClientCore,
             Event.Init o2.pClientCore] }) := by
  have hc := ((VR_LoadHmdSystemInternal_none_iff o1 w).mp h1).2.2.2.2.2
  have e1 := VR_InitInternal2_success_state o1 pe1 w h1
  have h2' : (VR_LoadHmdSystemInternal o2 (VR_InitInternal2 o1 VRInitError_None pe1 w).2).1 =
      VRInitError_None := (VR_LoadHmdSystemInternal_code o2 _ w).trans h2
  have e2 := VR_InitInternal2_success_state o2 pe2 _ h2'
  rw [e2]
  rw [e1] at ht ⊢
  simp only at ht ⊢
  have e : ((w.g_nVRToken + 1) % 2 ^ 32 + 1) % 2 ^ 32 = (w.g_nVRToken + 1) % 2 ^ 32 + 1 := by
    omega
  rw [e]
  exact ⟨hc, rfl⟩

/-- C3, amended, witnessed from the initial state. -/
theorem C3_second_init_reloads_witness :
    (VR_InitInternal2 (LoadOutcome.ok 3 5) VRInitError_None true World.initial).1.1 <
      2 ^ 32 - 1 ∧
    (VR_InitInternal2 (LoadOutcome.ok 4 6) VRInitError_None true
      (VR_InitInternal2 (LoadOutcome.ok 3 5) VRInitError_None true World.initial).2).1.1 =
      (VR_InitInternal2 (LoadOutcome.ok 3 5) VRInitError_None true World.initial).1.1 + 1 :=
  ⟨by decide,
    congrArg (fun r => r.1.1)
      (C3_second_init_reloads (LoadOutcome.ok 3 5) (LoadOutcome.ok 4 6) true true
        World.initial (by decide) (by decide) (by decide)).2⟩

/-! ## C9 -/

theorem VR_InitInternal2_invariant (o : LoadOutcome) (initResult : EVRInitError) (peError : Bool)
    (w : World) (hinv : ModuleInvariant w) (hU : w.g_pVRModule = 0 ∧ w.g_pHmdSystem = 0) :
    ModuleInvariant (VR_InitInternal2 o initResult peError w).2 := by
  obtain ⟨hm, hh⟩ := hU
  obtain ⟨hl, _⟩ := hinv
  rw [hm] at hl
  simp only [if_true] at hl
  unfold ModuleInvariant VR_InitInternal2 VR_LoadHmdSystemInternal
  cases o.bReadPathRegistry <;> cases o.runtimeIsDirectory <;> cases o.testPathIsDirectory <;>
    by_cases h1 : o.pMod = 0 <;> by_cases h2 : o.fnFactory = 0 <;>
    by_cases h3 : o.pClientCore = 0 <;>
    by_cases h4 : initResult = VRInitError_None <;>
    simp [h1, h2, h3, h4, hm, hh, hl, SharedLib_Unload_live, SharedLib_Load_live]

theorem VR_ShutdownInternal_invariant (apiPublic : Bool) (w : World) (hinv : ModuleInvariant w) :
    ModuleInvariant (VR_ShutdownInternal apiPublic w) := by
  obtain ⟨hl, hiff⟩ := hinv
  unfold ModuleInvariant VR_ShutdownInternal
  by_cases h2 : w.g_pVRModule = 0
  · have h1 : w.g_pHmdSystem = 0 := hiff.mp h2
    cases apiPublic <;> simp [h1, h2, hl] at hl ⊢
  · have h1 : w.g_pHmdSystem ≠ 0 := fun h => h2 (hiff.mpr h)
    cases apiPublic <;> simp [h1, h2, hl, SharedLib_Unload_live] at hl ⊢

/-- `VR_IsHmdPresent` leaves the live modules as they were, in every state. -/
theorem VR_IsHmdPresent_live (o : LoadOutcome) (present : Bool) (w : World) :
    (VR_IsHmdPresent o present w).2.live = w.live := by
  unfold VR_IsHmdPresent VR_LoadHmdSystemInternal
  by_cases hh : w.g_pHmdSystem = 0 <;>
  cases o.bReadPathRegistry <;> cases o.runtimeIsDirectory <;> cases o.testPathIsDirectory <;>
    by_cases h1 : o.pMod = 0 <;> by_cases h2 : o.fnFactory = 0 <;>
    by_cases h3 : o.pClientCore = 0 <;>
    simp [h1, h2, h3, hh, SharedLib_Unload_live, SharedLib_Load_live]

theorem VR_IsHmdPresent_invariant (o : LoadOutcome) (present : Bool) (w : World)
    (hinv : ModuleInvariant w) : ModuleInvariant (VR_IsHmdPresent o present w).2 := by
  obtain ⟨hl, hiff⟩ := hinv
  unfold ModuleInvariant
  rw [VR_IsHmdPresent_live]
  by_cases hh : w.g_pHmdSystem = 0
  · have hm : w.g_pVRModule = 0 := hiff.mpr hh
    have e : (VR_IsHmdPresent o present w).2.g_pVRModule = 0 ∧
        (VR_IsHmdPresent o present w).2.g_pHmdSystem = 0 := by
      unfold VR_IsHmdPresent VR_LoadHmdSystemInternal
      cases o.bReadPathRegistry <;> cases o.runtimeIsDirectory <;>
        cases o.testPathIsDirectory <;> by_cases h1 : o.pMod = 0 <;>
        by_cases h2 : o.fnFactory = 0 <;> by_cases h3 : o.pClientCore = 0 <;>
        simp [h1, h2, h3, hm, hh]
    rw [e.1, e.2, hl, hm]; simp
  · have e : (VR_IsHmdPresent o present w).2 = emit (Event.BIsHmdPresent w.g_pHmdSystem) w := by
      unfold VR_IsHmdPresent; simp [hh]
    rw [e]; simpa using ⟨hl, hiff⟩

theorem VR_GetGenericInterface_invariant (core : CoreAnswers) (name : Name) (peError : Bool)
    (w : World) (hinv : ModuleInvariant w) :
    ModuleInvariant (VR_GetGenericInterface core name peError w).2 := by
  obtain ⟨a, b, _, d⟩ := VR_GetGenericInterface_frame core w name.length name peError (le_refl _)
  unfold ModuleInvariant
  rw [a, b, d]
  exact hinv

theorem VR_IsInterfaceVersionValid_invariant (answer : EVRInitError) (name : Name)
    (w : World) (hinv : ModuleInvariant w) :
    ModuleInvariant (VR_IsInterfaceVersionValid answer name w).2 := by
  unfold VR_IsInterfaceVersionValid
  split
  · exact hinv
  · exact hinv

/-- A failing `VR_InitInternal2` leaves no module live that was not live
before the call, in every state. -/
theorem VR_InitInternal2_failure_live (o : LoadOutcome) (initResult : EVRInitError)
    (peError : Bool) (w : World)
    (hfail : (VR_LoadHmdSystemInternal o w).1 ≠ VRInitError_None ∨
      initResult ≠ VRInitError_None) :
    (VR_InitInternal2 o initResult peError w).2.live.Sublist w.live := by
  have hs : (w.live.erase w.g_pVRModule).Sublist w.live := List.erase_sublist _ _
  revert hfail
  unfold VR_InitInternal2 VR_LoadHmdSystemInternal
  cases o.bReadPathRegistry <;> cases o.runtimeIsDirectory <;> cases o.testPathIsDirectory <;>
    by_cases h1 : o.pMod = 0 <;> by_cases h2 : o.fnFactory = 0 <;>
    by_cases h3 : o.pClientCore = 0 <;>
    by_cases h4 : initResult = VRInitError_None <;>
    by_cases h5 : w.g_pVRModule = 0 <;>
    simp [h1, h2, h3, h4, h5, hs, SharedLib_Unload_live, SharedLib_Load_live]

/-- The invariant holds along every sequence of calls that starts in a state
where it holds and issues `Init` only while Unloaded. -/
theorem runCalls_invariant (apiPublic : Bool) (calls : List Call) :
    ∀ w : World, ModuleInvariant w → InitOnlyWhenUnloaded apiPublic calls w →
      ModuleInvariant (runCalls apiPublic calls w) := by
  induction calls with
  | nil => intro w hinv _; exact hinv
  | cons c cs ih =>
    intro w hinv hseq
    cases c with
    | Init o initResult peError =>
      obtain ⟨hU, hrest⟩ := hseq
      exact ih _ (VR_InitInternal2_invariant o initResult peError w hinv hU) hrest
    | Shutdown =>
      exact ih _ (VR_ShutdownInternal_invariant apiPublic w hinv) hseq
    | GetGenericInterface core name peError =>
      exact ih _ (VR_GetGenericInterface_invariant core name peError w hinv) hseq
    | IsInterfaceVersionValid answer name =>
      exact ih _ (VR_IsInterfaceVersionValid_invariant answer name w hinv) hseq
    | IsHmdPresent o present =>
      exact ih _ (VR_IsHmdPresent_invariant o present w hinv) hseq

/-- C9, as stated, fails: after two successful `Init` calls with no Shutdown
between them two modules are live, and the first of them is not the one
recorded in `g_pVRModule`. -/
theorem C9_counterexample :
    (runCalls true twoInits World.initial).live = [2, 1] ∧
    (runCalls true twoInits World.initial).g_pVRModule = 2 ∧
    ¬ ((runCalls true twoInits World.initial).live.length ≤ 1) ∧
    ¬ (∀ h ∈ (runCalls true twoInits World.initial).live,
        h = (runCalls true twoInits World.initial).g_pVRModule) := by
  decide

/-- C9, amended: in every state reached from the initial state by a sequence
of Init, Shutdown, getInterface, isVersionValid and isBackendPresent calls in
which `Init` is issued only while the broker is Unloaded, at most one module
is live, a live module is the one recorded in `g_pVRModule`, and a recorded
module is live; in every state, a failing `Init` leaves no module live that
was not live before it, and `VR_IsHmdPresent` leaves the live modules as they
were. -/
theorem C9_at_most_one_module (apiPublic : Bool) (calls : List Call)
    (hseq : InitOnlyWhenUnloaded apiPublic calls World.initial) :
    (runCalls apiPublic calls World.initial).live.length ≤ 1 ∧
    (∀ h ∈ (runCalls apiPublic calls World.initial).live,
      h = (runCalls apiPublic calls World.initial).g_pVRModule) ∧
    ((runCalls apiPublic calls World.initial).g_pVRModule ≠ 0 →
      (runCalls apiPublic calls World.initial).g_pVRModule ∈
        (runCalls apiPublic calls World.initial).live) ∧
    (∀ (w : World) (o : LoadOutcome) (initResult : EVRInitError) (peError : Bool),
      ((VR_LoadHmdSystemInternal o w).1 ≠ VRInitError_None ∨
          initResult ≠ VRInitError_None) →
        (VR_InitInternal2 o initResult peError w).2.live.Sublist w.live) ∧
    (∀ (w : World) (o : LoadOutcome) (present : Bool),
      (VR_IsHmdPresent o present w).2.live = w.live) := by
  have h0 : ModuleInvariant World.initial := by
    unfold ModuleInvariant World.initial; simp
  have hinv := runCalls_invariant apiPublic calls World.initial h0 hseq
  obtain ⟨hl, _⟩ := hinv
  refine ⟨?_, ?_, ?_, ?_, ?_⟩
  · rw [hl]; split <;> simp
  · intro h hh
    rw [hl] at hh
    split at hh
    · simp at hh
    · simpa using hh
  · intro hne
    rw [hl]; simp [hne]
  · intro w o initResult peError hfail
    exact VR_InitInternal2_failure_live o initResult peError w hfail
  · intro w o present
    exact VR_IsHmdPresent_live o present w

/-- C9, amended, witnessed on a session with a probe, an Init/Shutdown cycle
with a lookup in it, and a failing Init. -/
theorem C9_at_most_one_module_witness :
    InitOnlyWhenUnloaded true sampleSession World.initial ∧
    (runCalls true sampleSession World.initial).live.length ≤ 1 :=
  have hs : InitOnlyWhenUnloaded true sampleSession World.initial := by
    simp [InitOnlyWhenUnloaded, sampleSession, Call.run, World.initial, VR_IsHmdPresent,
      VR_LoadHmdSystemInternal, LoadOutcome.ok, LoadOutcome.noRegistry, VR_InitInternal2,
      VR_ShutdownInternal, VR_IsInterfaceVersionValid, SharedLib_Load, SharedLib_Unload, emit,
      VR_GetGenericInterface, substr, FnTable, IVRCore_001, coreByLength]
  ⟨hs, (C9_at_most_one_module true sampleSession hs).1⟩

/-! ## C10 -/

theorem slot_setSlot (ctx : COpenVRContext) (c : Capability) (p : Ptr) :
    (ctx.setSlot c p).slot c = p := by
  cases c <;> rfl

theorem outputError_frame (e : EVRInitError) (w : World) :
    (outputError e w).g_nVRToken = w.g_nVRToken ∧ (outputError e w).g_pHmdSystem = w.g_pHmdSystem := by
  unfold outputError VR_GetVRInitErrorAsEnglishDescription
  split <;> simp

theorem CheckClear_token (w : World) (m : ModuleState) :
    (COpenVRContext.CheckClear w m).VRToken = w.g_nVRToken := by
  unfold COpenVRContext.CheckClear VR_GetInitToken
  split
  · rfl
  · rename_i h; simpa using h

/-- After an accessor returned a pointer, the slot holds that pointer and the
remembered token is the global token. -/
theorem accessor_post (Version : Capability → Name) (c : Capability) (core : CoreAnswers)
    (w : World) (m : ModuleState) (p : Ptr)
    (h : (COpenVRContext.accessor Version c core w m).1 = some p) :
    (COpenVRContext.accessor Version c core w m).2.2.ctx.slot c = p ∧
    (COpenVRContext.accessor Version c core w m).2.2.VRToken =
      (COpenVRContext.accessor Version c core w m).2.1.g_nVRToken := by
  have hf := VR_GetGenericInterface_frame core w (Version c).length (Version c) true (le_refl _)
  have ht := CheckClear_token w m
  revert h
  unfold COpenVRContext.accessor
  simp only
  split
  · split
    · rename_i iface eError w1 heq
      rw [heq] at hf
      intro h
      simp only [slot_setSlot, Option.some.injEq] at h
      subst h
      refine ⟨slot_setSlot _ _ _, ?_⟩
      have h3 : w1.g_nVRToken = w.g_nVRToken := hf.2.2.1
      cases eError with
      | none => simp [ht, h3]
      | some e => simp [ht, h3, (outputError_frame e w1).1]
    · intro h; exact absurd h (by simp)
  · intro h
    simp only [Option.some.injEq] at h
    exact ⟨h, ht⟩

/-- With the remembered token up to date and the slot null, whether never set
or set to a null result, the accessor calls `VR_GetGenericInterface`. -/
theorem accessor_resolves (Version : Capability → Name) (c : Capability) (core : CoreAnswers)
    (w : World) (m : ModuleState) (ht : m.VRToken = w.g_nVRToken) (hs : m.ctx.slot c = 0) :
    COpenVRContext.accessor Version c core w m =
      match VR_GetGenericInterface core (Version c) true w with
      | (some (iface, eError), w1) =>
        (some iface,
          (match eError with
            | some e => outputError e w1
            | none => w1),
          { m with ctx := m.ctx.setSlot c iface })
      | (none, w1) => (none, w1, m) := by
  have hc : COpenVRContext.CheckClear w m = m := by
    unfold COpenVRContext.CheckClear VR_GetInitToken
    simp [ht]
  unfold COpenVRContext.accessor
  simp only [hc, hs, if_true]
  generalize VR_GetGenericInterface core (Version c) true w = r
  rcases r with ⟨_ | ⟨iface, eError⟩, w1⟩
  · rfl
  · cases eError <;> simp [slot_setSlot]

/-- With the remembered token up to date and the slot non-null, the accessor
returns the slot and calls nothing. -/
theorem accessor_cached (Version : Capability → Name) (c : Capability) (core : CoreAnswers)
    (w : World) (m : ModuleState) (ht : m.VRToken = w.g_nVRToken) (hs : m.ctx.slot c ≠ 0) :
    COpenVRContext.accessor Version c core w m = (some (m.ctx.slot c), w, m) := by
  have hc : COpenVRContext.CheckClear w m = m := by
    unfold COpenVRContext.CheckClear VR_GetInitToken
    simp [ht]
  unfold COpenVRContext.accessor
  simp [hc, hs]

/-- C10, amended: for every capability accessor, a null result of the
resolution is stored in the slot, where it cannot be told from an unset slot:
a following call to the same accessor with no change of the global token calls
`VR_GetGenericInterface` again and returns what that call yields. Only a
non-null result is cached: the following call then returns the same pointer
and leaves the state, trace of external calls included, as it was. -/
theorem C10_null_result_resolved_again (Version : Capability → Name) (c : Capability)
    (core1 core2 : CoreAnswers) (w : World) (m : ModuleState) :
    ((COpenVRContext.accessor Version c core1 w m).1 = some 0 →
      COpenVRContext.accessor Version c core2 (COpenVRContext.accessor Version c core1 w m).2.1
          (COpenVRContext.accessor Version c core1 w m).2.2 =
        match VR_GetGenericInterface core2 (Version c) true
            (COpenVRContext.accessor Version c core1 w m).2.1 with
        | (some (iface, eError), w1) =>
          (some iface,
            (match eError with
              | some e => outputError e w1
              | none => w1),
            { (COpenVRContext.accessor Version c core1 w m).2.2 with
              ctx := (COpenVRContext.accessor Version c core1 w m).2.2.ctx.setSlot c iface })
        | (none, w1) => (none, w1, (COpenVRContext.accessor Version c core1 w m).2.2)) ∧
    (∀ p : Ptr, p ≠ 0 → (COpenVRContext.accessor Version c core1 w m).1 = some p →
      COpenVRContext.accessor Version c core2 (COpenVRContext.accessor Version c core1 w m).2.1
          (COpenVRContext.accessor Version c core1 w m).2.2 =
        (some p, (COpenVRContext.accessor Version c core1 w m).2.1,
          (COpenVRContext.accessor Version c core1 w m).2.2)) := by
  constructor
  · intro h
    obtain ⟨hs, ht⟩ := accessor_post Version c core1 w m 0 h
    exact accessor_resolves Version c core2 _ _ ht hs
  · intro p hp h
    obtain ⟨hs, ht⟩ := accessor_post Version c core1 w m p h
    have hne : (COpenVRContext.accessor Version c core1 w m).2.2.ctx.slot c ≠ 0 := by
      rw [hs]; exact hp
    rw [accessor_cached Version c core2 _ _ ht hne, hs]

/-- The example call of `VRSystem()` evaluated. -/
theorem nullResolution_eq :
    nullResolution =
      (some 0,
        { World.loaded with trace :=
            [Event.GetGenericInterface 5 (sampleVersion Capability.VRSystem) 0,
             Event.HookVRInterface (sampleVersion Capability.VRSystem) 0,
             Event.GetEnglishStringForHmdError 5 VRInitError_Init_InterfaceNotFound] },
        ModuleState.synced) := by
  simp [nullResolution, COpenVRContext.accessor, COpenVRContext.CheckClear, VR_GetInitToken,
    ModuleState.synced, ModuleState.initial, COpenVRContext.Clear, COpenVRContext.slot,
    COpenVRContext.setSlot, World.loaded, VR_GetGenericInterface, sampleVersion, substr, FnTable,
    coreNull, emit, outputError, VR_GetVRInitErrorAsEnglishDescription]

/-- C10, as stated, fails: after `VRSystem()` resolved to null in a Loaded
state, a second `VRSystem()` call with the token unchanged calls the client
core and the hook installer again, and returns a non-null pointer when the
client core now knows the interface. -/
theorem C10_counterexample :
    nullResolution.1 = some 0 ∧
    nullResolution.2.1.g_nVRToken = World.loaded.g_nVRToken ∧
    (COpenVRContext.accessor sampleVersion Capability.VRSystem coreNull nullResolution.2.1
      nullResolution.2.2).2.1.trace =
      nullResolution.2.1.trace ++
        [Event.GetGenericInterface 5 (sampleVersion Capability.VRSystem) 0,
         Event.HookVRInterface (sampleVersion Capability.VRSystem) 0,
         Event.GetEnglishStringForHmdError 5 VRInitError_Init_InterfaceNotFound] ∧
    (COpenVRContext.accessor sampleVersion Capability.VRSystem coreByLength nullResolution.2.1
      nullResolution.2.2).1 = some 113 := by
  rw [nullResolution_eq]
  simp [COpenVRContext.accessor, COpenVRContext.CheckClear, VR_GetInitToken,
    ModuleState.synced, ModuleState.initial, COpenVRContext.Clear, COpenVRContext.slot,
    COpenVRContext.setSlot, World.loaded, VR_GetGenericInterface, sampleVersion, substr, FnTable,
    coreNull, coreByLength, emit, outputError, VR_GetVRInitErrorAsEnglishDescription]

/-- C10, amended, witnessed on the example call. -/
theorem C10_null_result_resolved_again_witness :
    nullResolution.1 = some 0 ∧
    COpenVRContext.accessor sampleVersion Capability.VRSystem coreByLength nullResolution.2.1
        nullResolution.2.2 =
      match VR_GetGenericInterface coreByLength (sampleVersion Capability.VRSystem) true
          nullResolution.2.1 with
      | (some (iface, eError), w1) =>
        (some iface,
          (match eError with
            | some e => outputError e w1
            | none => w1),
          { nullResolution.2.2 with
            ctx := nullResolution.2.2.ctx.setSlot Capability.VRSystem iface })
      | (none, w1) => (none, w1, nullResolution.2.2) :=
  have h : nullResolution.1 = some 0 := by rw [nullResolution_eq]
  ⟨h, (C10_null_result_resolved_again sampleVersion Capability.VRSystem coreNull coreByLength
    World.loaded ModuleState.synced).1 h⟩

/-! ## C11 -/

theorem Clear_slot (ctx : COpenVRContext) (c : Capability) : ctx.Clear.slot c = 0 := by
  cases c <;> rfl

theorem Clear_setSlot_null (ctx : COpenVRContext) (c : Capability) :
    ctx.Clear.setSlot c 0 = ctx.Clear := by
  cases c <;> rfl

/-- With a remembered token that differs from the global token, the accessor
behaves as on the cleared context that remembers the global token. -/
theorem accessor_stale (Version : Capability → Name) (c : Capability) (core : CoreAnswers)
    (w : World) (m : ModuleState) (hne : m.VRToken ≠ w.g_nVRToken) :
    COpenVRContext.accessor Version c core w m =
      COpenVRContext.accessor Version c core w
        { VRToken := w.g_nVRToken, ctx := m.ctx.Clear } := by
  have h1 : COpenVRContext.CheckClear w m = { VRToken := w.g_nVRToken, ctx := m.ctx.Clear } := by
    unfold COpenVRContext.CheckClear VR_GetInitToken
    simp [hne]
  have h2 : COpenVRContext.CheckClear w { VRToken := w.g_nVRToken, ctx := m.ctx.Clear } =
      { VRToken := w.g_nVRToken, ctx := m.ctx.Clear } := by
    unfold COpenVRContext.CheckClear VR_GetInitToken
    simp
  unfold COpenVRContext.accessor
  simp only [h1, h2]

theorem VR_ShutdownInternal_unloaded (apiPublic : Bool) (w : World) :
    (VR_ShutdownInternal apiPublic w).g_pHmdSystem = 0 := by
  unfold VR_ShutdownInternal
  cases apiPublic <;> by_cases h1 : w.g_pHmdSystem = 0 <;> by_cases h2 : w.g_pVRModule = 0 <;>
    simp [h1, h2]

/-- C11: for every context whose remembered token equals the global token,
whatever its slots hold, the next call of any capability accessor after
`VR_ShutdownInternal` sees the token mismatch, clears every slot, remembers
the current global token and returns null, calling no collaborator (the
resolution fails with not-initialized); if a successful `VR_InitInternal2`
follows the Shutdown, the accessor clears every slot, remembers the current
token and returns the pointer that `VR_GetGenericInterface` resolves then,
which for a version string that does not begin with `"FnTable"` is the
pointer the client core answers with. -/
theorem C11_stale_context (apiPublic : Bool) (Version : Capability → Name) (c : Capability)
    (core : CoreAnswers) (w : World) (m : ModuleState) (hsync : m.VRToken = w.g_nVRToken) :
    COpenVRContext.accessor Version c core (VR_ShutdownInternal apiPublic w) m =
      (some 0, VR_ShutdownInternal apiPublic w,
        { VRToken := (VR_ShutdownInternal apiPublic w).g_nVRToken, ctx := m.ctx.Clear }) ∧
    (∀ (o : LoadOutcome) (peError : Bool),
      (VR_LoadHmdSystemInternal o w).1 = VRInitError_None →
        COpenVRContext.accessor Version c core
            (VR_InitInternal2 o VRInitError_None peError (VR_ShutdownInternal apiPublic w)).2 m =
          (match VR_GetGenericInterface core (Version c) true
              (VR_InitInternal2 o VRInitError_None peError
                (VR_ShutdownInternal apiPublic w)).2 with
            | (some (iface, eError), w1) =>
              (some iface,
                (match eError with
                  | some e => outputError e w1
                  | none => w1),
                { VRToken := (VR_InitInternal2 o VRInitError_None peError
                      (VR_ShutdownInternal apiPublic w)).2.g_nVRToken,
                  ctx := m.ctx.Clear.setSlot c iface })
            | (none, w1) =>
              (none, w1,
                { VRToken := (VR_InitInternal2 o VRInitError_None peError
                      (VR_ShutdownInternal apiPublic w)).2.g_nVRToken,
                  ctx := m.ctx.Clear })) ∧
        (substr (Version c) 0 7 ≠ some FnTable →
          (COpenVRContext.accessor Version c core
            (VR_InitInternal2 o VRInitError_None peError
              (VR_ShutdownInternal apiPublic w)).2 m).1 = some (core (Version c)).1)) := by
  have hst := VR_ShutdownInternal_token apiPublic w
  constructor
  · have hne : m.VRToken ≠ (VR_ShutdownInternal apiPublic w).g_nVRToken := by
      rw [hst, hsync]; omega
    have hU : VR_GetGenericInterface core (Version c) true (VR_ShutdownInternal apiPublic w) =
        (some (0, some VRInitError_Init_NotInitialized), VR_ShutdownInternal apiPublic w) := by
      rw [VR_GetGenericInterface]
      simp [VR_ShutdownInternal_unloaded]
    rw [accessor_stale Version c core _ m hne,
      accessor_resolves Version c core (VR_ShutdownInternal apiPublic w)
        { VRToken := (VR_ShutdownInternal apiPublic w).g_nVRToken, ctx := m.ctx.Clear }
        rfl (Clear_slot m.ctx c), hU]
    simp [Clear_setSlot_null, outputError, VR_GetVRInitErrorAsEnglishDescription,
      VR_ShutdownInternal_unloaded]
  · intro o peError hload
    have hload2 : (VR_LoadHmdSystemInternal o (VR_ShutdownInternal apiPublic w)).1 =
        VRInitError_None := (VR_LoadHmdSystemInternal_code o _ w).trans hload
    have hs := VR_InitInternal2_success_state o peError (VR_ShutdownInternal apiPublic w) hload2
    have htok : (VR_InitInternal2 o VRInitError_None peError
        (VR_ShutdownInternal apiPublic w)).2.g_nVRToken =
        ((w.g_nVRToken + 1) % 2 ^ 32 + 1) % 2 ^ 32 := by
      rw [hs, hst]
    have hL : (VR_InitInternal2 o VRInitError_None peError
        (VR_ShutdownInternal apiPublic w)).2.g_pHmdSystem ≠ 0 := by
      rw [hs]
      exact ((VR_LoadHmdSystemInternal_none_iff o w).mp hload).2.2.2.2.2
    have hne : m.VRToken ≠ (VR_InitInternal2 o VRInitError_None peError
        (VR_ShutdownInternal apiPublic w)).2.g_nVRToken := by
      rw [htok, hsync]; omega
    have e := accessor_stale Version c core _ m hne
    rw [accessor_resolves Version c core
      (VR_InitInternal2 o VRInitError_None peError (VR_ShutdownInternal apiPublic w)).2
      { VRToken := (VR_InitInternal2 o VRInitError_None peError
          (VR_ShutdownInternal apiPublic w)).2.g_nVRToken, ctx := m.ctx.Clear }
      rfl (Clear_slot m.ctx c)] at e
    refine ⟨e, ?_⟩
    intro hp
    rw [e, VR_GetGenericInterface_plain core (Version c) true _ hL hp]
    simp [resolveAndHook]

/-- C11 witnessed on a context that holds the pointer 77 for `VRSystem()`:
after Shutdown the accessor returns null, and after Shutdown and a successful
Init it returns the pointer 113 that the client core answers with. -/
theorem C11_stale_context_witness :
    ModuleState.cached.VRToken = World.loaded.g_nVRToken ∧
    ModuleState.cached.ctx.slot Capability.VRSystem = 77 ∧
    (COpenVRContext.accessor sampleVersion Capability.VRSystem coreByLength
      (VR_ShutdownInternal true World.loaded) ModuleState.cached).1 = some 0 ∧
    (COpenVRContext.accessor sampleVersion Capability.VRSystem coreByLength
      (VR_InitInternal2 (LoadOutcome.ok 4 6) VRInitError_None true
        (VR_ShutdownInternal true World.loaded)).2 ModuleState.cached).1 =
      some (coreByLength (sampleVersion Capability.VRSystem)).1 ∧
    (coreByLength (sampleVersion Capability.VRSystem)).1 = 113 :=
  have h := C11_stale_context true sampleVersion Capability.VRSystem coreByLength
    World.loaded ModuleState.cached rfl
  ⟨rfl, rfl, congrArg (fun r => r.1) h.1,
    (h.2 (LoadOutcome.ok 4 6) true (by decide)).2 (by decide), by decide⟩

/-! ## C12 -/

/-- C12 evaluated in a Loaded state at two names that are not of the form
`"FnTable:" ++ X`: the request `"FnTable"` passes the seven-character test and
is left by `std::out_of_range` of `substr(8)`, with no call of the client
core; the request `"FnTableZ"` recurses on the empty name, so the client core
and the hook installer are each called twice, first for the empty name. -/
theorem C12_prefix_without_delimiter :
    ¬ IsDerivedBindingName FnTable ∧
    VR_GetGenericInterface coreByLength FnTable true World.loaded = (none, World.loaded) ∧
    ¬ IsDerivedBindingName FnTableZ ∧
    VR_GetGenericInterface coreByLength FnTableZ true World.loaded =
      (some (108, some VRInitError_None),
        { World.loaded with trace :=
            [Event.GetGenericInterface 5 [] 100,
             Event.HookVRInterface [] 100,
             Event.GetGenericInterface 5 FnTableZ 108,
             Event.HookVRInterface FnTableZ 108] }) := by
  refine ⟨?_, ?_, ?_, ?_⟩
  · rintro ⟨X, hX⟩
    have hlen := congrArg List.length hX
    simp [FnTable, FnTableColon] at hlen
  · simp [VR_GetGenericInterface, World.loaded, coreByLength, substr, substrFrom, FnTable, emit]
  · rintro ⟨X, hX⟩
    simp [FnTableZ, FnTableColon] at hX
  · simp [VR_GetGenericInterface, World.loaded, coreByLength, substr, substrFrom, FnTable,
      FnTableZ, emit]

end vr
